import Mathlib

/-!
Verification of the tarjouspalvelu.js scraping core.

The HTML / HTTP layer is shallowly embedded: each extractor is a pure Lean
function over the structured data the cheerio selectors would return (cell
texts, attribute values, link hrefs), and each session operation is a pure
function of the HTTP responses the transport would deliver (status code,
Set-Cookie headers, body).  JavaScript string primitives used by the source
(String.prototype.replace with a string pattern, trim, substr, includes,
split, parseInt, Node's querystring.parse, and the few literal regexes) are
modelled executably below.
-/

namespace Tarjouspalvelu

/-- Does the list begin with the given pattern?  (Model of the implicit
"match at this position" step of JavaScript string search.) -/
def listStartsWith : List Char → List Char → Bool
  | _, [] => true
  | [], _ :: _ => false
  | c :: s, p :: ps => c == p && listStartsWith s ps

/-- Index of the first occurrence of `pat` in a list, as in JavaScript
`String.prototype.indexOf` (an empty pattern matches at index 0). -/
def firstIdxL (pat : List Char) : List Char → Option Nat
  | [] => if listStartsWith [] pat then some 0 else none
  | c :: t =>
    if listStartsWith (c :: t) pat then some 0
    else (firstIdxL pat t).map (· + 1)

/-- JavaScript `s.replace(pat, rep)` with a *string* pattern: replaces only
the first occurrence, or returns the string unchanged when there is none. -/
def replaceFirstL (s pat rep : List Char) : List Char :=
  match firstIdxL pat s with
  | none => s
  | some i => s.take i ++ rep ++ s.drop (i + pat.length)

/-- JavaScript `s.replace(pat, rep)` on `String`. -/
def jsReplaceFirst (s pat rep : String) : String :=
  ⟨replaceFirstL s.data pat.data rep.data⟩

/-- JavaScript `s.includes(pat)`. -/
def jsIncludes (s pat : String) : Bool :=
  (firstIdxL pat.data s.data).isSome

/-- Whitespace for JavaScript `trim` (the characters this portal's markup
can actually contain). -/
def isJsSpace (c : Char) : Bool :=
  c == ' ' || c == '\t' || c == '\n' || c == '\r'

/-- JavaScript `s.trim()` on a character list. -/
def jsTrimL (l : List Char) : List Char :=
  ((l.dropWhile isJsSpace).reverse.dropWhile isJsSpace).reverse

/-- JavaScript `s.trim()`. -/
def jsTrim (s : String) : String := ⟨jsTrimL s.data⟩

/-- JavaScript `s.substr(n)` (drop the first `n` characters). -/
def strDrop (s : String) (n : Nat) : String := ⟨s.data.drop n⟩

/-- JavaScript `s.split(pat)[0]`: the text before the first occurrence of
`pat`, or the whole string when `pat` does not occur. -/
def jsSplitHead (s pat : String) : String :=
  match firstIdxL pat.data s.data with
  | none => s
  | some i => ⟨s.data.take i⟩

/-- Numeric value of a digit run, used by the `parseInt` model. -/
def digitsVal (l : List Char) : Nat :=
  l.foldl (fun acc c => 10 * acc + (c.toNat - '0'.toNat)) 0

/-- Leading decimal-digit run of a list, or `none` when it is empty. -/
def leadingDigits (l : List Char) : Option Nat :=
  let ds := l.takeWhile Char.isDigit
  if ds.isEmpty then none else some (digitsVal ds)

/-- JavaScript `parseInt` (decimal; the portal's markup never produces the
hexadecimal `0x` form).  `none` models the `NaN` result. -/
def jsParseInt (s : String) : Option Int :=
  match s.data.dropWhile isJsSpace with
  | '-' :: rest => (leadingDigits rest).map (fun n => -(n : Int))
  | '+' :: rest => (leadingDigits rest).map (fun n => (n : Int))
  | rest => (leadingDigits rest).map (fun n => (n : Int))

/-- A JavaScript `number`-typed value as the scraper can actually leave it:
a finite integer, `NaN` from a failed `parseInt`, or `undefined` from a
variable that was never assigned. -/
inductive JsNum where
  | num (n : Int)
  | nan
  | undef
  deriving DecidableEq, Repr

/-- `parseInt` packaged as a `JsNum`. -/
def jsParseIntNum (s : String) : JsNum :=
  match jsParseInt s with
  | some n => .num n
  | none => .nan

/-- Split a character list on `&`, as Node's `querystring.parse` does. -/
def splitOnAmp : List Char → List (List Char)
  | [] => [[]]
  | c :: t =>
    if c == '&' then [] :: splitOnAmp t
    else
      match splitOnAmp t with
      | [] => [[c]]
      | h :: r => (c :: h) :: r

/-- Split a `key=value` segment at its first `=` (later `=` stay in the
value), as Node's `querystring.parse` does. -/
def splitAtEq : List Char → List Char × List Char
  | [] => ([], [])
  | c :: t =>
    if c == '=' then ([], t)
    else
      let kv := splitAtEq t
      (c :: kv.1, kv.2)

/-- Model of Node `querystring.parse(s)[key]`: the value of the first
`key=value` segment with the given key (percent-escapes, which the portal's
numeric parameters never contain, are not decoded). -/
def qsLookupL (l key : List Char) : Option (List Char) :=
  ((splitOnAmp l).map splitAtEq).findSome?
    (fun kv => if kv.1 = key then some kv.2 else none)

/-- `querystring.parse` lookup on `String`. -/
def qsLookup (s key : String) : Option String :=
  (qsLookupL s.data key.data).map (fun v => ⟨v⟩)

/-- Lazy-capture completion search for the literal regexes of the source:
the shortest newline-free capture at the current position after which
`postOk` accepts the remainder (JavaScript `(.*?)` semantics). -/
def lazyCapture (postOk : List Char → Bool) (rest : List Char) : Option (List Char) :=
  (List.range (rest.length + 1)).findSome? fun j =>
    if ((rest.take j).all (fun c => c != '\n')) && postOk (rest.drop j)
    then some (rest.take j) else none

/-- Leftmost match of a regex of the shape `pre(.*?)post`: scan start
positions left to right, and at the first position where the literal `pre`
matches and some completion exists, return the lazy capture. -/
def lazyFind (pre : List Char) (postOk : List Char → Bool) : List Char → Option (List Char)
  | [] => if listStartsWith [] pre then lazyCapture postOk [] else none
  | c :: t =>
    match (if listStartsWith (c :: t) pre
           then lazyCapture postOk ((c :: t).drop pre.length)
           else none) with
    | some r => some r
    | none => lazyFind pre postOk t

/-- Completion test for a literal tail of a regex. -/
def litAt (lit : String) : List Char → Bool :=
  fun r => listStartsWith r lit.data

/-- Completion test for the `.gif` tail of `/ikoni_(.*?).gif/`: one
arbitrary non-newline character (the unescaped `.`) followed by `gif`. -/
def dotGifAt : List Char → Bool
  | [] => false
  | c :: t => (c != '\n') && listStartsWith t "gif".data

/-- JavaScript truthiness of an optional string (`undefined` and the empty
string are falsy). -/
def jsTruthyStr : Option String → Bool
  | none => false
  | some s => s != ""

/-- The typed failures the scraper can raise (from `throw new Error(...)`
sites) together with the `TypeError` crash a `.foo.toString()` or
`.match(...)[1]` on `undefined`/`null` produces. -/
inductive ScrapeError where
  | invalidSlug
  | sessionAcquisitionFailed
  | typeError
  | loadPageFailed
  | loadPageFailedBadSession
  | loadIndexPageFailed
  | loginFailed
  | languageMismatch
  | languageSetFailed
  | flagParseError
  | companyIdMissing
  | companySlugMissing
  | tenderRemovalFailed
  deriving DecidableEq, Repr

/-- The portal session: uuid and cookie id, plus the authenticated token
once a login succeeded. -/
structure Session where
  uuid : String
  id : String
  token : Option String
  deriving DecidableEq, Repr

/-- The four locale tags the portal supports. -/
inductive Language where
  | Fi
  | Sv
  | En
  | Da
  deriving DecidableEq, Repr

/-- The runtime string value of a `Language` enum member. -/
def Language.code : Language → String
  | .Fi => "fi-FI"
  | .Sv => "sv-SE"
  | .En => "en-GB"
  | .Da => "da-DK"

/-- An HTTP response as the axios transport exposes it to the scraper:
status code, the `Set-Cookie` header values, and the body. -/
structure HttpResponse where
  status : Nat
  setCookie : List String
  body : String
  deriving DecidableEq, Repr

/-- A HEAD response: status code and `Location` header. -/
structure HeadResponse where
  status : Nat
  location : Option String
  deriving DecidableEq, Repr

/-- Axios resolves a request exactly when the status is 2xx (the default
`validateStatus`); anything else lands in the `.catch` handler. -/
def is2xx (n : Nat) : Bool := 200 ≤ n && n < 300

/-- A redirect-class (3xx) status. -/
def isRedirect3xx (n : Nat) : Bool := 300 ≤ n && n < 400

/-- The source's `error.response.headers['set-cookie'].join('')`. -/
def joinedSetCookie (r : HttpResponse) : String := String.join r.setCookie

/-- The date-format table of `parseLocalizedDate`, keyed by locale. -/
def dateFormatOf : Language → String
  | .Fi => "d.M.yyyy HH:mm:ss"
  | .Sv => "yyyy-MM-dd HH:mm:ss"
  | .En => "dd/MM/yyyy HH:mm:ss"
  | .Da => "dd-MM-yyyy HH:mm:ss"

/-- A `Date` value as produced by `zonedTimeToUtc(parse(raw, fmt, ...),
'Europe/Helsinki')`: date-fns never throws here (an unparseable string
yields an Invalid Date object), so the result is a total function of the
raw text and the locale-selected format. -/
inductive JsDate where
  | zoned (raw : String) (fmt : String)
  deriving DecidableEq, Repr

/-- `parseLocalizedDate` from the source utilities. -/
def parseLocalizedDate (date : String) (locale : Language) : JsDate :=
  .zoned date (dateFormatOf locale)

/-! ### Session acquisition (`companySlugToId`, both variants) -/

/-- The generic index page a nonexistent slug redirects to. -/
def indexPageUrl : String := "https://tarjouspalvelu.fi/Default/Index"

/-- The shared tail of both `companySlugToId` variants:
`parseInt(querystring.parse(location.substr(14)).p.toString())`.  A missing
`p` key makes `.toString()` crash with a `TypeError`. -/
def slugRedirectId (loc : String) : Except ScrapeError JsNum :=
  match qsLookup (strDrop loc 14) "p" with
  | none => .error .typeError
  | some v => .ok (jsParseIntNum v)

/-- `companySlugToId` as in `src/unnamed/part_000`: resolves a redirect's
`Location` to the numeric id and guards the result with
`if (!id) throw new Error('Failed getting company ID')`. -/
def companySlugToIdA (resp : HeadResponse) : Except ScrapeError Int :=
  if is2xx resp.status then .error .sessionAcquisitionFailed
  else if resp.location = some indexPageUrl then .error .invalidSlug
  else
    match resp.location with
    | none => .error .typeError
    | some loc =>
      match slugRedirectId loc with
      | .error e => .error e
      | .ok (.num n) => if n = 0 then .error .sessionAcquisitionFailed else .ok n
      | .ok _ => .error .sessionAcquisitionFailed

/-- `companySlugToId` as in `src/unnamed/part_001`: `let id!: number` with
no final check, so a resolved (non-redirect) response returns the never
assigned `id` — `undefined` — and an unparseable value returns `NaN`. -/
def companySlugToIdB (resp : HeadResponse) : Except ScrapeError JsNum :=
  if is2xx resp.status then .ok .undef
  else if resp.location = some indexPageUrl then .error .invalidSlug
  else
    match resp.location with
    | none => .error .typeError
    | some loc => slugRedirectId loc

/-! ### Login (`loginToSession`, both variants) -/

/-- The `/TarjPalv=(.*?);/` capture over the joined `Set-Cookie` text. -/
def tarjPalvToken (cookie : String) : Option String :=
  (lazyFind "TarjPalv=".data (litAt ";") cookie.data).map (fun l => ⟨l⟩)

/-- The source's trailing `if (!session.token) throw new Error('Failed to
log in, bad username/password?')`. -/
def loginTokenCheck (s : Session) : Except ScrapeError Session :=
  if jsTruthyStr s.token then .ok s else .error .loginFailed

/-- `loginToSession` from `src/unnamed/part_001`, as a function of the two
HTTP responses.  The POST `.catch` assigns the token only on status 302 and
has no `else`, so any other rejected status falls through, as does a
resolved 2xx response, to the final token check. -/
def loginToSessionB (session : Session) (getResp postResp : HttpResponse) :
    Except ScrapeError Session :=
  if is2xx getResp.status = false then .error .loadIndexPageFailed
  else
    match (if postResp.status = 302 then
             match tarjPalvToken (joinedSetCookie postResp) with
             | none => .error .typeError
             | some tok => .ok { session with token := some tok }
           else .ok session : Except ScrapeError Session) with
    | .error e => .error e
    | .ok s => loginTokenCheck s

/-- `loginToSession` from `src/unnamed/part_000` with a session supplied
(so the `getSession` fallback is skipped): it first resolves the slug via
`companySlugToId`, and its POST `.catch` throws `LoginFailed` for rejected
non-302 statuses, while a resolved 2xx response still falls through to the
token check. -/
def loginToSessionA (session : Session) (headResp : HeadResponse)
    (getResp postResp : HttpResponse) : Except ScrapeError Session :=
  match companySlugToIdA headResp with
  | .error e => .error e
  | .ok _ =>
    if is2xx getResp.status = false then
      if getResp.status = 302 then .error .loadPageFailedBadSession
      else .error .loadPageFailed
    else
      match (if postResp.status = 302 then
               match tarjPalvToken (joinedSetCookie postResp) with
               | none => .error .typeError
               | some tok => .ok { session with token := some tok }
             else if is2xx postResp.status then .ok session
             else .error .loginFailed : Except ScrapeError Session) with
      | .error e => .error e
      | .ok s => loginTokenCheck s

/-! ### Language setting (`setSessionLanguage`, both variants) -/

/-- The `/culture=(.*?)&Expires/` capture over the joined `Set-Cookie`
text. -/
def cultureValue (cookie : String) : Option String :=
  (lazyFind "culture=".data (litAt "&Expires") cookie.data).map (fun l => ⟨l⟩)

/-- `setSessionLanguage` from `src/unnamed/part_001`.  The POST `.catch`
only acts on status 302 (confirming the culture cookie and raising
`LanguageMismatch` on disagreement); every other outcome, resolved or
rejected, reaches the final `return session`. -/
def setSessionLanguageB (language : Language) (session : Session)
    (getResp postResp : HttpResponse) : Except ScrapeError Session :=
  if is2xx getResp.status = false then .error .loadIndexPageFailed
  else if postResp.status = 302 then
    match cultureValue (joinedSetCookie postResp) with
    | none => .error .typeError
    | some c => if language.code = c then .ok session else .error .languageMismatch
  else .ok session

/-- `setSessionLanguage` from `src/unnamed/part_000`: same 302 confirmation,
but its `.catch` has an `else` that throws for rejected non-302 statuses;
a resolved 2xx POST still reaches `return session`. -/
def setSessionLanguageA (language : Language) (session : Session)
    (getResp postResp : HttpResponse) : Except ScrapeError Session :=
  if is2xx getResp.status = false then
    if getResp.status = 302 then .error .loadPageFailedBadSession
    else .error .loadPageFailed
  else if postResp.status = 302 then
    match cultureValue (joinedSetCookie postResp) with
    | none => .error .typeError
    | some c => if language.code = c then .ok session else .error .languageMismatch
  else if is2xx postResp.status then .ok session
  else .error .languageSetFailed

/-! ### Company listing (`getCompanies`) -/

/-- One `tr > td` cell of the index page, as cheerio exposes it to
`getCompanies`: its `style` and `colspan` attributes, the `src` of its
first `img`, the `href` of its first `a`, and the text of its first `p`. -/
structure CompanyCell where
  style : Option String
  colspan : Option String
  imgSrc : Option String
  linkHref : Option String
  caption : String
  deriving DecidableEq, Repr

/-- A company record (the logo-free shape the current variant produces). -/
structure Company where
  id : JsNum
  slug : String
  name : String
  deriving DecidableEq, Repr

/-- A cell that carries company data: truthy `style` attribute and no
`colspan` attribute (both are layout-only markers). -/
def isDataCell (c : CompanyCell) : Bool :=
  jsTruthyStr c.style && !jsTruthyStr c.colspan

/-- The per-cell body of the `getCompanies` loop: id from
`img.src.substr(15)`, slug from `a.href.substr(26)`, name from the
caption; a falsy id or slug string throws. -/
def extractCompany (c : CompanyCell) : Except ScrapeError Company :=
  match c.imgSrc.map (fun s => strDrop s 15) with
  | none => .error .companyIdMissing
  | some idStr =>
    if idStr = "" then .error .companyIdMissing
    else
      match c.linkHref.map (fun h => strDrop h 26) with
      | none => .error .companySlugMissing
      | some slug =>
        if slug = "" then .error .companySlugMissing
        else .ok { id := jsParseIntNum idStr, slug := slug, name := c.caption }

/-- `getCompanies` over the listing's cells: spacer cells (falsy `style`,
or a `colspan` present) are skipped with `continue`; a data cell that
cannot be extracted aborts the whole listing. -/
def getCompanies : List CompanyCell → Except ScrapeError (List Company)
  | [] => .ok []
  | c :: t =>
    if jsTruthyStr c.style = false then getCompanies t
    else if jsTruthyStr c.colspan then getCompanies t
    else
      match extractCompany c with
      | .error e => .error e
      | .ok comp =>
        match getCompanies t with
        | .error e => .error e
        | .ok rest => .ok (comp :: rest)

/-! ### Notices listing (`getNotices`) -/

/-- Sequential extraction of a row list, aborting at the first failing
row — the semantics of the source's `for` loops and `.map` callbacks whose
bodies can `throw`. -/
def exceptMapList {α β : Type} (f : α → Except ScrapeError β) :
    List α → Except ScrapeError (List β)
  | [] => .ok []
  | x :: t =>
    match f x with
    | .error e => .error e
    | .ok y =>
      match exceptMapList f t with
      | .error e => .error e
      | .ok ys => .ok (y :: ys)

/-- A dynamic-purchasing-system row of `#DPSIlmoituslista`, as cheerio
exposes it: the texts of cells 0–4, the `class` of the first `div` inside
cell 3, the text of the `.punainenfontti` marker inside cell 3, and the
`href` of the link in cell 6. -/
structure DpsRow where
  unitText : String
  customIdText : String
  titleText : String
  descText : String
  descDivClass : Option String
  markerText : String
  deadlineText : String
  linkHref : Option String
  deriving DecidableEq, Repr

/-- A `DynamicPurchasingSystem` record as `getNotices` builds it. -/
structure DynamicPurchasingSystem where
  id : JsNum
  customId : String
  unit : String
  title : String
  shortDescription : String
  isBeingCorrected : Bool
  additionalDesc : Option String
  deadline : Option JsDate
  originalDeadline : Option String
  deriving DecidableEq, Repr

/-- `parseInt(querystring.parse(href || '').tpID.toString())`; a missing
`tpID` key crashes with a `TypeError`. -/
def rowLinkId (href : Option String) : Except ScrapeError JsNum :=
  match qsLookup (href.getD "") "tpID" with
  | none => .error .typeError
  | some v => .ok (jsParseIntNum v)

/-- One iteration of the DPS loop of `getNotices`. -/
def extractDps (r : DpsRow) (locale : Language) :
    Except ScrapeError DynamicPurchasingSystem :=
  match rowLinkId r.linkHref with
  | .error e => .error e
  | .ok idv =>
    let shortDescription := jsTrim r.descText
    let isBeingCorrected := r.descDivClass == some "punainenfontti"
    .ok { id := idv
        , customId := jsTrim r.customIdText
        , unit := jsTrim r.unitText
        , title := jsTrim r.titleText
        , shortDescription := shortDescription
        , isBeingCorrected := isBeingCorrected
        , additionalDesc :=
            if isBeingCorrected then
              some (jsTrim (jsReplaceFirst shortDescription r.markerText ""))
            else none
        , deadline := some (parseLocalizedDate (jsTrim r.deadlineText) locale)
        , originalDeadline := some (jsTrim r.deadlineText) }

/-- A notice row of `#ctl00_PageContent_GridView1`, as cheerio exposes it:
texts of cells 0 and 1, the icon `src` attributes and link text and span
texts of cell 2, the span text and span colour of cell 3, the text of
cell 4, and the `href` of the link in cell 6. -/
structure NoticeRow where
  customIdText : String
  unitText : String
  flagSrcs : List (Option String)
  titleLinkText : String
  typeTexts : List String
  descSpanText : String
  descSpanColor : Option String
  deadlineText : String
  linkHref : Option String
  deriving DecidableEq, Repr

/-- A notice record in list form, as `getNotices` builds it. -/
structure NoticeListItem where
  id : JsNum
  customId : String
  unit : String
  flags : List String
  title : String
  types : List String
  shortDescription : String
  isBeingCorrected : Bool
  deadline : Option JsDate
  originalDeadline : Option String
  deriving DecidableEq, Repr

/-- The regex `/ikoni_(.*?).gif/` applied to an optional `src` (the `?.`
of the source makes a missing attribute a failed match). -/
def jsMatchIkoniGif (src : Option String) : Option String :=
  match src with
  | none => none
  | some s => (lazyFind "ikoni_".data dotGifAt s.data).map (fun l => ⟨l⟩)

/-- The fallback regex `/images\/(.*?)_ikoni/` applied to an optional
`src`. -/
def jsMatchImagesIkoni (src : Option String) : Option String :=
  match src with
  | none => none
  | some s => (lazyFind "images/".data (litAt "_ikoni") s.data).map (fun l => ⟨l⟩)

/-- The flag decoder of `getNotices`: try `/ikoni_(.*?).gif/`, fall back to
`/images\/(.*?)_ikoni/`, and throw when neither matches. -/
def decodeFlagListed (src : Option String) : Except ScrapeError String :=
  match jsMatchIkoniGif src with
  | some c => .ok c
  | none =>
    match jsMatchImagesIkoni src with
    | some c => .ok c
    | none => .error .flagParseError

/-- The flag decoder of `getNotice`: only `/ikoni_(.*?).gif/` is tried. -/
def decodeFlagDetail (src : Option String) : Except ScrapeError String :=
  match jsMatchIkoniGif src with
  | some c => .ok c
  | none => .error .flagParseError

/-- One iteration of the notice loop of `getNotices`.  The id extraction
precedes the flag decoding, matching the field order of the object
literal. -/
def extractNoticeRow (r : NoticeRow) (locale : Language) :
    Except ScrapeError NoticeListItem :=
  match rowLinkId r.linkHref with
  | .error e => .error e
  | .ok idv =>
    match exceptMapList decodeFlagListed r.flagSrcs with
    | .error e => .error e
    | .ok flags =>
      .ok { id := idv
          , customId := jsTrim r.customIdText
          , unit := jsTrim r.unitText
          , flags := flags
          , title := jsReplaceFirst (jsTrim r.titleLinkText)
              (jsTrim r.customIdText ++ " / ") ""
          , types := r.typeTexts
          , shortDescription := jsTrim r.descSpanText
          , isBeingCorrected := r.descSpanColor == some "red"
          , deadline :=
              if (jsTrim r.deadlineText).length ≠ 0 then
                some (parseLocalizedDate (jsTrim r.deadlineText) locale)
              else none
          , originalDeadline :=
              if (jsTrim r.deadlineText).length ≠ 0 then
                some (jsTrim r.deadlineText)
              else none }

/-- The `Notices` result of `getNotices`. -/
structure Notices where
  dynamicPurchasingSystems : List DynamicPurchasingSystem
  notices : List NoticeListItem
  language : Language
  deriving DecidableEq, Repr

/-- `getNotices` over the two row collections of the fetched page (the
locale has already been matched from the page source). -/
def getNotices (dpsRows : List DpsRow) (noticeRows : List NoticeRow)
    (locale : Language) : Except ScrapeError Notices :=
  match exceptMapList (extractDps · locale) dpsRows with
  | .error e => .error e
  | .ok dps =>
    match exceptMapList (extractNoticeRow · locale) noticeRows with
    | .error e => .error e
    | .ok ns =>
      .ok { dynamicPurchasingSystems := dps, notices := ns, language := locale }

/-! ### Notice detail (`getNotice`) -/

/-- A notice attachment; the `?.` on the link's `href` can leave
`fileUuid` undefined. -/
structure NoticeAttachment where
  fileName : String
  fileUuid : Option String
  deriving DecidableEq, Repr

/-- The fixed download-path text stripped from attachment hrefs. -/
def attachmentHrefStub : String :=
  "../Document/Open/?fileType=TarjPyynTied&id="

/-- `buildAttachmentLink` from the source utilities. -/
def buildAttachmentLink (fileUuid : String) : String :=
  "https://tarjouspalvelu.fi/Document/Open/?fileType=TarjPyynTied&id=" ++ fileUuid

/-- One attachment entry of `getNotice`: the link text and the href with
the download-path text replaced away. -/
def extractAttachment (p : String × Option String) : NoticeAttachment :=
  { fileName := p.1
  , fileUuid := p.2.map (fun h => jsReplaceFirst h attachmentHrefStub "") }

/-- The parsed data of the three pages `getNotice` joins: the details
page's fixed-id elements, the processing page's flag icons and type spans,
and the attachments page's file links and external links. -/
structure NoticeDetailPages where
  customIdText : String
  publishedText : String
  dueDateText : String
  unitText : String
  titleText : String
  flagSrcs : List (Option String)
  typeTexts : List String
  descriptionHtml : Option String
  authorityTypeText : String
  categoryText : String
  attachmentLinks : List (String × Option String)
  externalLinks : List (Option String)
  deriving DecidableEq, Repr

/-- A notice record in detail form, as `getNotice` builds it. -/
structure NoticeDetail where
  id : Int
  customId : String
  published : JsDate
  originalPublished : String
  deadline : Option JsDate
  originalDeadline : Option String
  unit : String
  title : String
  flags : List String
  types : List String
  description : Option String
  authorityType : String
  category : String
  attachments : List NoticeAttachment
  links : List (Option String)
  deriving DecidableEq, Repr

/-- `getNotice` over the fetched pages: only the flag decoding can throw;
the deadline pair is gated by the *untrimmed* length of `#valDueDate` and
both sides strip the trailing `'  (UTC...'` timezone annotation. -/
def getNoticeDetail (noticeId : Int) (pages : NoticeDetailPages)
    (locale : Language) : Except ScrapeError NoticeDetail :=
  match exceptMapList decodeFlagDetail pages.flagSrcs with
  | .error e => .error e
  | .ok flags =>
    .ok { id := noticeId
        , customId := pages.customIdText
        , published := parseLocalizedDate pages.publishedText locale
        , originalPublished := pages.publishedText
        , deadline :=
            if pages.dueDateText.length ≠ 0 then
              some (parseLocalizedDate (jsSplitHead pages.dueDateText "  (UTC") locale)
            else none
        , originalDeadline :=
            if pages.dueDateText.length ≠ 0 then
              some (jsSplitHead pages.dueDateText "  (UTC")
            else none
        , unit := pages.unitText
        , title := pages.titleText
        , flags := flags
        , types := pages.typeTexts
        , description := pages.descriptionHtml
        , authorityType := pages.authorityTypeText
        , category := pages.categoryText
        , attachments := pages.attachmentLinks.map extractAttachment
        , links := pages.externalLinks }

/-! ### Tender removal (`removeTender`) -/

/-- The embedded error-flag marker `removeTender` looks for in the body. -/
def errorFlagMarker : String := "\x7b\"error\":true\x7d"

/-- `removeTender`: a rejected POST throws, and a resolved POST whose body
includes the error-flag marker also throws. -/
def removeTender (resp : HttpResponse) : Except ScrapeError Unit :=
  if is2xx resp.status = false then .error .tenderRemovalFailed
  else if jsIncludes resp.body errorFlagMarker then .error .tenderRemovalFailed
  else .ok ()

/-- Is an `Except` result a success? -/
def isOkE {α : Type} : Except ScrapeError α → Bool
  | .ok _ => true
  | .error _ => false

deriving instance DecidableEq for Except

/-! ### Concrete fixtures used by the witnesses and counterexamples -/

/-- A notice row whose displayed title duplicates the *unit* cell, while
the custom-id cell holds an unrelated reference. -/
def c1Row : NoticeRow :=
  { customIdText := "ABC123", unitText := "UnitX", flagSrcs := []
  , titleLinkText := "UnitX / Actual Title", typeTexts := []
  , descSpanText := "", descSpanColor := none, deadlineText := ""
  , linkHref := some "a.aspx?x=1&tpID=5" }

/-- The record `extractNoticeRow` produces for `c1Row` — the unit text is
still duplicated in the title. -/
def c1Rec : NoticeListItem :=
  { id := .num 5, customId := "ABC123", unit := "UnitX", flags := []
  , title := "UnitX / Actual Title", types := [], shortDescription := ""
  , isBeingCorrected := false, deadline := none, originalDeadline := none }

/-- A notice row whose displayed title duplicates the custom-id cell. -/
def c1wRow : NoticeRow :=
  { customIdText := "UnitX", unitText := "Procurement unit X", flagSrcs := []
  , titleLinkText := "UnitX / Actual Title", typeTexts := []
  , descSpanText := "", descSpanColor := none, deadlineText := ""
  , linkHref := some "a.aspx?x=1&tpID=5" }

/-- The record `extractNoticeRow` produces for `c1wRow`. -/
def c1wRec : NoticeListItem :=
  { id := .num 5, customId := "UnitX", unit := "Procurement unit X", flags := []
  , title := "Actual Title", types := [], shortDescription := ""
  , isBeingCorrected := false, deadline := none, originalDeadline := none }

/-- A DPS row with a nonempty deadline cell. -/
def c2DpsRow : DpsRow :=
  { unitText := "Unit", customIdText := "CID", titleText := "Title"
  , descText := "Desc", descDivClass := none, markerText := ""
  , deadlineText := "1.2.2021 12:00:00", linkHref := some "x?a=1&tpID=7" }

/-- A notice row with an empty deadline cell. -/
def c2NRow : NoticeRow :=
  { customIdText := "CID2", unitText := "Unit2", flagSrcs := []
  , titleLinkText := "T", typeTexts := [], descSpanText := ""
  , descSpanColor := none, deadlineText := "", linkHref := some "x?a=1&tpID=8" }

/-- The DPS record produced for `c2DpsRow`. -/
def c2DpsRec : DynamicPurchasingSystem :=
  { id := .num 7, customId := "CID", unit := "Unit", title := "Title"
  , shortDescription := "Desc", isBeingCorrected := false, additionalDesc := none
  , deadline := some (.zoned "1.2.2021 12:00:00" "d.M.yyyy HH:mm:ss")
  , originalDeadline := some "1.2.2021 12:00:00" }

/-- The notice record produced for `c2NRow`. -/
def c2NRec : NoticeListItem :=
  { id := .num 8, customId := "CID2", unit := "Unit2", flags := []
  , title := "T", types := [], shortDescription := ""
  , isBeingCorrected := false, deadline := none, originalDeadline := none }

/-- The `Notices` value produced from the two rows above. -/
def c2Res : Notices :=
  { dynamicPurchasingSystems := [c2DpsRec], notices := [c2NRec]
  , language := .Fi }

/-- A session that already carries a token. -/
def c3Session : Session := { uuid := "uuid", id := "sid", token := some "tok" }

/-- A session without a token. -/
def c3wSession : Session := { uuid := "uuid", id := "sid", token := none }

/-- A slug-resolution redirect whose location carries `p=13`. -/
def c3Head : HeadResponse :=
  { status := 302
  , location := some "https://tarjouspalvelu.fi/tarjouspyynnot.aspx?g=abc&p=13" }

/-- A resolved (200) GET response. -/
def c3Get : HttpResponse := { status := 200, setCookie := [], body := "" }

/-- A resolved (200) — hence non-redirect — POST response. -/
def c3Post : HttpResponse := { status := 200, setCookie := [], body := "" }

/-- A tokenless session for the language-setting scenarios. -/
def c4Session : Session := { uuid := "uuid", id := "sid", token := none }

/-- A resolved (200) GET response. -/
def c4Get : HttpResponse := { status := 200, setCookie := [], body := "" }

/-- A resolved (200) — hence non-redirect — language POST response. -/
def c4Post : HttpResponse := { status := 200, setCookie := [], body := "" }

/-- A redirecting language POST whose `Set-Cookie` confirms `sv-SE`. -/
def c4wPost : HttpResponse :=
  { status := 302
  , setCookie := ["tarjouspalvelu.fi=culture=sv-SE&Expires=Wed"], body := "" }

/-- The pienhankinta icon: matched by the fallback pattern only. -/
def c5Src : Option String := some "images/pienhankinta_ikoni.gif"

/-- A regular icon filename matched by the first pattern. -/
def c5wSrc : Option String := some "/App_Themes/2014/images/ikoni_eu.gif"

/-- A slug-routing HEAD request that resolved without any redirect. -/
def c6Resolved : HeadResponse := { status := 200, location := none }

/-- A slug-routing redirect carrying the company id `p=13`. -/
def c6Redirect : HeadResponse :=
  { status := 302
  , location := some "https://tarjouspalvelu.fi/tarjouspyynnot.aspx?g=abc&p=13" }

/-- A spacer cell: no style attribute at all. -/
def c7Spacer : CompanyCell :=
  { style := none, colspan := none, imgSrc := none, linkHref := none
  , caption := "" }

/-- A data cell: style present, image src ending in `Image/42`, link href
ending in the slug `acme`, caption `Acme Oy`. -/
def c7Data : CompanyCell :=
  { style := some "width:100px", colspan := none
  , imgSrc := some "/Default/Image/42"
  , linkHref := some "https://tarjouspalvelu.fi/acme", caption := "Acme Oy" }

/-- The fixture listing of scenario B: one spacer, one data cell. -/
def c7Cells : List CompanyCell := [c7Spacer, c7Data]

/-- The single company record scenario B must produce. -/
def c7Out : List Company := [{ id := .num 42, slug := "acme", name := "Acme Oy" }]

/-- A DPS row flagged as being corrected, whose description embeds the
marker element's text. -/
def c8Row : DpsRow :=
  { unitText := "Unit", customIdText := "CID", titleText := "Title"
  , descText := "  HUOM korjattu Real description  "
  , descDivClass := some "punainenfontti", markerText := "HUOM korjattu "
  , deadlineText := "1.2.2021 12:00:00", linkHref := some "x?a=1&tpID=7" }

/-- The DPS record produced for `c8Row`. -/
def c8Rec : DynamicPurchasingSystem :=
  { id := .num 7, customId := "CID", unit := "Unit", title := "Title"
  , shortDescription := "HUOM korjattu Real description"
  , isBeingCorrected := true, additionalDesc := some "Real description"
  , deadline := some (.zoned "1.2.2021 12:00:00" "d.M.yyyy HH:mm:ss")
  , originalDeadline := some "1.2.2021 12:00:00" }

/-- A 200 removal response whose body embeds the error-flag marker. -/
def c9Resp : HttpResponse :=
  { status := 200, setCookie := []
  , body := "ok \x7b\"error\":true\x7d rest" }

/-- Detail pages with one attachment link of the download-path shape. -/
def c10Pages : NoticeDetailPages :=
  { customIdText := "H123", publishedText := "1.2.2021 12:00:00"
  , dueDateText := "", unitText := "U", titleText := "T"
  , flagSrcs := [], typeTexts := [], descriptionHtml := none
  , authorityTypeText := "A", categoryText := "C"
  , attachmentLinks := [("file.pdf", some (attachmentHrefStub ++ "uuid-1"))]
  , externalLinks := [] }

/-- The detail record produced for `c10Pages`. -/
def c10Det : NoticeDetail :=
  { id := 9, customId := "H123"
  , published := .zoned "1.2.2021 12:00:00" "d.M.yyyy HH:mm:ss"
  , originalPublished := "1.2.2021 12:00:00"
  , deadline := none, originalDeadline := none
  , unit := "U", title := "T", flags := [], types := []
  , description := none, authorityType := "A", category := "C"
  , attachments := [{ fileName := "file.pdf", fileUuid := some "uuid-1" }]
  , links := [] }

/-! ### Helper lemmas -/

/-- A list begins with itself followed by anything. -/
theorem listStartsWith_append (p s : List Char) :
    listStartsWith (p ++ s) p = true := by
  induction p with
  | nil => cases s <;> rfl
  | cons c ps ih => simp [listStartsWith, ih]

/-- A pattern the string begins with is found at index 0. -/
theorem firstIdxL_zero {l pat : List Char} (h : listStartsWith l pat = true) :
    firstIdxL pat l = some 0 := by
  cases l with
  | nil => simp [firstIdxL, h]
  | cons c t => simp [firstIdxL, h]

/-- Replacing a pattern the string begins with by nothing drops exactly
that leading pattern. -/
theorem replaceFirstL_of_startsWith {l pat : List Char}
    (h : listStartsWith l pat = true) :
    replaceFirstL l pat [] = l.drop pat.length := by
  simp [replaceFirstL, firstIdxL_zero h]

/-- Two strings with the same character data are equal. -/
theorem strEqOfData {a b : String} (h : a.data = b.data) : a = b := by
  cases a; cases b; exact congrArg String.mk h

/-- The character data of an appended string. -/
theorem strDataAppend (a b : String) : (a ++ b).data = a.data ++ b.data := by
  cases a; cases b; rfl

/-- `jsReplaceFirst` on a string that begins with the pattern, with an
empty replacement, drops the leading pattern. -/
theorem jsReplaceFirst_drop {s p : String}
    (h : listStartsWith s.data p.data = true) :
    jsReplaceFirst s p "" = ⟨s.data.drop p.length⟩ :=
  congrArg String.mk (replaceFirstL_of_startsWith h)

/-- Every member of a successful `exceptMapList` result comes from some
input element that mapped to it successfully. -/
theorem exceptMapList_ok_mem {α β : Type} (f : α → Except ScrapeError β) :
    ∀ (l : List α) (ys : List β), exceptMapList f l = .ok ys →
      ∀ y ∈ ys, ∃ x ∈ l, f x = .ok y := by
  intro l
  induction l with
  | nil =>
    intro ys h y hy
    simp [exceptMapList] at h
    subst h
    simp at hy
  | cons x t ih =>
    intro ys h y hy
    unfold exceptMapList at h
    cases hfx : f x with
    | error e => rw [hfx] at h; simp at h
    | ok y1 =>
      rw [hfx] at h
      cases ht : exceptMapList f t with
      | error e => rw [ht] at h; simp at h
      | ok ys1 =>
        rw [ht] at h
        simp at h
        subst h
        rcases List.mem_cons.mp hy with hy1 | hy2
        · exact ⟨x, List.mem_cons_self x t, by rw [hfx, hy1]⟩
        · obtain ⟨x2, hx2, hfx2⟩ := ih ys1 ht y hy2
          exact ⟨x2, List.mem_cons_of_mem x hx2, hfx2⟩

/-- If some input element maps to an error, `exceptMapList` cannot
succeed. -/
theorem exceptMapList_not_ok {α β : Type} (f : α → Except ScrapeError β)
    {x : α} {e : ScrapeError} :
    ∀ (l : List α), x ∈ l → f x = .error e →
      ∀ ys, exceptMapList f l ≠ .ok ys := by
  intro l
  induction l with
  | nil => intro hx; simp at hx
  | cons a t ih =>
    intro hx hfx ys h
    unfold exceptMapList at h
    cases hfa : f a with
    | error e2 => rw [hfa] at h; simp at h
    | ok y1 =>
      rw [hfa] at h
      cases ht : exceptMapList f t with
      | error e2 => rw [ht] at h; simp at h
      | ok ys1 =>
        rcases List.mem_cons.mp hx with hx1 | hx2
        · rw [hx1] at hfx; rw [hfx] at hfa; cases hfa
        · exact ih hx2 hfx ys1 ht

/-! ### C1 — notice title normalization -/

/-- C1 (counterexample): a notice row whose displayed title begins with
the *unit* cell text followed by `" / "`, but whose custom-id cell text
differs, keeps the full displayed title: the code strips the custom-id
cell (cell 0), not the unit cell (cell 1). -/
theorem c1_counterexample :
    extractNoticeRow c1Row Language.Fi = .ok c1Rec ∧
    listStartsWith (jsTrim c1Row.titleLinkText).data
      ((jsTrim c1Row.unitText) ++ " / ").data = true ∧
    c1Rec.unit = "UnitX" ∧ c1Rec.title = "UnitX / Actual Title" ∧
    c1Rec.title ≠ "Actual Title" := by decide

/-- C1 (amended): for every notice row extracted by `getNotices`, whenever
the displayed title text begins with the row's *custom-id* cell text
followed by `" / "`, the stored title equals the displayed title with that
leading prefix stripped; in particular, given title text
`"UnitX / Actual Title"` and custom id `"UnitX"`, the extracted title
equals `"Actual Title"`. -/
theorem c1_title_strip :
    ∀ (r : NoticeRow) (locale : Language) (item : NoticeListItem),
      extractNoticeRow r locale = .ok item →
      listStartsWith (jsTrim r.titleLinkText).data
        ((jsTrim r.customIdText) ++ " / ").data = true →
      item.title = ⟨(jsTrim r.titleLinkText).data.drop
        ((jsTrim r.customIdText) ++ " / ").length⟩ := by
  intro r locale item h hsw
  unfold extractNoticeRow at h
  cases hid : rowLinkId r.linkHref with
  | error e => rw [hid] at h; simp at h
  | ok idv =>
    rw [hid] at h
    cases hfl : exceptMapList decodeFlagListed r.flagSrcs with
    | error e => rw [hfl] at h; simp at h
    | ok flags =>
      rw [hfl] at h
      simp only [Except.ok.injEq] at h
      subst h
      exact jsReplaceFirst_drop hsw

/-- C1 (witness): the amended statement at a concrete row whose custom-id
cell is `"UnitX"` and displayed title `"UnitX / Actual Title"`. -/
theorem c1_witness :
    extractNoticeRow c1wRow Language.Fi = .ok c1wRec ∧
    c1wRec.title = "Actual Title" :=
  have h1 : extractNoticeRow c1wRow Language.Fi = .ok c1wRec := by decide
  have h2 := c1_title_strip c1wRow Language.Fi c1wRec h1 (by decide)
  ⟨h1, by rw [h2]; decide⟩

/-! ### C5 — icon flag decoding -/

/-- C5 (counterexample): the pienhankinta icon filename fails the first
pattern and *would* be matched by the fallback pattern, yet `getNotice`'s
decoder throws `FlagParseError` because it never tries the fallback —
while `getNotices`' decoder succeeds on the same filename. -/
theorem c5_counterexample :
    decodeFlagDetail c5Src = .error .flagParseError ∧
    jsMatchIkoniGif c5Src = none ∧
    jsMatchImagesIkoni c5Src = some "pienhankinta" ∧
    decodeFlagListed c5Src = .ok "pienhankinta" := by decide

/-- C5 (amended): in `getNotices` the first filename pattern is tried and,
failing that, the fallback pattern, with `FlagParseError` exactly when
both fail; in `getNotice` only the first pattern is tried, with
`FlagParseError` exactly when it fails; in either extractor a failing icon
aborts the record, so no record is ever produced with the flag silently
dropped. -/
theorem c5_flag_decoding :
    ∀ src : Option String,
      (decodeFlagListed src = .error .flagParseError ↔
        (jsMatchIkoniGif src = none ∧ jsMatchImagesIkoni src = none)) ∧
      (∀ c, jsMatchIkoniGif src = some c → decodeFlagListed src = .ok c) ∧
      (∀ c, jsMatchIkoniGif src = none → jsMatchImagesIkoni src = some c →
        decodeFlagListed src = .ok c) ∧
      (decodeFlagDetail src = .error .flagParseError ↔
        jsMatchIkoniGif src = none) ∧
      (∀ (r : NoticeRow) (locale : Language), src ∈ r.flagSrcs →
        decodeFlagListed src = .error .flagParseError →
        ∀ item, extractNoticeRow r locale ≠ .ok item) ∧
      (∀ (noticeId : Int) (pages : NoticeDetailPages) (locale : Language),
        src ∈ pages.flagSrcs → decodeFlagDetail src = .error .flagParseError →
        ∀ nd, getNoticeDetail noticeId pages locale ≠ .ok nd) := by
  intro src
  refine ⟨?_, ?_, ?_, ?_, ?_, ?_⟩
  · cases h1 : jsMatchIkoniGif src <;> cases h2 : jsMatchImagesIkoni src <;>
      simp [decodeFlagListed, h1, h2]
  · intro c hc; simp [decodeFlagListed, hc]
  · intro c h1 h2; simp [decodeFlagListed, h1, h2]
  · cases h1 : jsMatchIkoniGif src <;> simp [decodeFlagDetail, h1]
  · intro r locale hmem herr item hok
    unfold extractNoticeRow at hok
    cases hid : rowLinkId r.linkHref with
    | error e => rw [hid] at hok; simp at hok
    | ok idv =>
      rw [hid] at hok
      cases hfl : exceptMapList decodeFlagListed r.flagSrcs with
      | error e => rw [hfl] at hok; simp at hok
      | ok flags =>
        exact exceptMapList_not_ok decodeFlagListed r.flagSrcs hmem herr flags hfl
  · intro noticeId pages locale hmem herr nd hok
    unfold getNoticeDetail at hok
    cases hfl : exceptMapList decodeFlagDetail pages.flagSrcs with
    | error e => rw [hfl] at hok; simp at hok
    | ok flags =>
      exact exceptMapList_not_ok decodeFlagDetail pages.flagSrcs hmem herr flags hfl

/-- C5 (witness): the amended statement at a regular icon filename,
matched by the first pattern. -/
theorem c5_witness : decodeFlagListed c5wSrc = .ok "eu" :=
  (c5_flag_decoding c5wSrc).2.1 "eu" (by decide)

/-! ### C8 — DPS correction handling -/

/-- C8: for every dynamic-purchasing-system row extracted by `getNotices`,
`additionalDesc` is populated exactly when `isBeingCorrected` is true, in
which case it equals the short description with the correction-marker
element's own text removed (first occurrence) and surrounding whitespace
trimmed; when `isBeingCorrected` is false, `additionalDesc` is absent. -/
theorem c8_additional_desc :
    ∀ (r : DpsRow) (locale : Language) (rec : DynamicPurchasingSystem),
      extractDps r locale = .ok rec →
      (rec.additionalDesc.isSome = rec.isBeingCorrected) ∧
      (rec.isBeingCorrected = true →
        rec.additionalDesc =
          some (jsTrim (jsReplaceFirst rec.shortDescription r.markerText ""))) ∧
      (rec.isBeingCorrected = false → rec.additionalDesc = none) := by
  intro r locale rec h
  unfold extractDps at h
  cases hid : rowLinkId r.linkHref with
  | error e => rw [hid] at h; simp at h
  | ok idv =>
    rw [hid] at h
    simp only [Except.ok.injEq] at h
    subst h
    cases hb : (r.descDivClass == some "punainenfontti") <;> simp [hb]

/-- C8 (witness): the statement at a concrete corrected row: the marker
text `"HUOM korjattu "` is removed from the short description and the
result trimmed. -/
theorem c8_witness :
    extractDps c8Row Language.Fi = .ok c8Rec ∧
    c8Rec.additionalDesc = some "Real description" ∧
    c8Rec.isBeingCorrected = true :=
  have h1 : extractDps c8Row Language.Fi = .ok c8Rec := by decide
  have h2 := (c8_additional_desc c8Row Language.Fi c8Rec h1).2.1 (by decide)
  ⟨h1, by rw [h2]; decide, by decide⟩

/-! ### C9 — tender removal error flag -/

/-- C9: `removeTender` fails whenever the response body contains the
embedded error-flag marker, even when the HTTP POST itself succeeded; it
completes successfully exactly when the HTTP call succeeds (2xx) and the
marker is absent from the body. -/
theorem c9_remove_tender :
    ∀ resp : HttpResponse,
      (removeTender resp = .ok () ↔
        (is2xx resp.status = true ∧
         jsIncludes resp.body errorFlagMarker = false)) ∧
      (jsIncludes resp.body errorFlagMarker = true →
        removeTender resp = .error .tenderRemovalFailed) := by
  intro resp
  cases h1 : is2xx resp.status <;> cases h2 : jsIncludes resp.body errorFlagMarker <;>
    simp [removeTender, h1, h2]

/-- C9 (witness): a 200 response whose body embeds the marker fails. -/
theorem c9_witness : removeTender c9Resp = .error .tenderRemovalFailed :=
  (c9_remove_tender c9Resp).2 (by decide)

/-! ### C2 — deadline / originalDeadline pairing -/

/-- C2: for every DPS record and every notice record produced by
`getNotices`, and for the record produced by `getNotice`, `deadline` and
`originalDeadline` are either both present or both null (for DPS rows the
source sets both unconditionally, so both are always present). -/
theorem c2_deadline_pairing :
    (∀ (dpsRows : List DpsRow) (noticeRows : List NoticeRow) (locale : Language)
      (res : Notices), getNotices dpsRows noticeRows locale = .ok res →
        (∀ d ∈ res.dynamicPurchasingSystems,
          d.deadline.isSome = true ∧ d.originalDeadline.isSome = true) ∧
        (∀ n ∈ res.notices, n.deadline.isSome = n.originalDeadline.isSome)) ∧
    (∀ (noticeId : Int) (pages : NoticeDetailPages) (locale : Language)
      (nd : NoticeDetail), getNoticeDetail noticeId pages locale = .ok nd →
        nd.deadline.isSome = nd.originalDeadline.isSome) := by
  constructor
  · intro dpsRows noticeRows locale res h
    unfold getNotices at h
    cases h1 : exceptMapList (extractDps · locale) dpsRows with
    | error e => rw [h1] at h; simp at h
    | ok dps =>
      rw [h1] at h
      cases h2 : exceptMapList (extractNoticeRow · locale) noticeRows with
      | error e => rw [h2] at h; simp at h
      | ok ns =>
        rw [h2] at h
        simp only [Except.ok.injEq] at h
        subst h
        constructor
        · intro d hd
          obtain ⟨row, _, hfd⟩ := exceptMapList_ok_mem _ dpsRows dps h1 d hd
          unfold extractDps at hfd
          cases hid : rowLinkId row.linkHref with
          | error e => rw [hid] at hfd; simp at hfd
          | ok idv =>
            rw [hid] at hfd
            simp only [Except.ok.injEq] at hfd
            subst hfd
            exact ⟨rfl, rfl⟩
        · intro n hn
          obtain ⟨row, _, hfn⟩ := exceptMapList_ok_mem _ noticeRows ns h2 n hn
          unfold extractNoticeRow at hfn
          cases hid : rowLinkId row.linkHref with
          | error e => rw [hid] at hfn; simp at hfn
          | ok idv =>
            rw [hid] at hfn
            cases hfl : exceptMapList decodeFlagListed row.flagSrcs with
            | error e => rw [hfl] at hfn; simp at hfn
            | ok flags =>
              rw [hfl] at hfn
              simp only [Except.ok.injEq] at hfn
              subst hfn
              by_cases hc : (jsTrim row.deadlineText).length ≠ 0 <;> simp [hc]
  · intro noticeId pages locale nd h
    unfold getNoticeDetail at h
    cases hfl : exceptMapList decodeFlagDetail pages.flagSrcs with
    | error e => rw [hfl] at h; simp at h
    | ok flags =>
      rw [hfl] at h
      simp only [Except.ok.injEq] at h
      subst h
      by_cases hc : pages.dueDateText.length ≠ 0 <;> simp [hc]

/-- C2 (witness): the pairing at a concrete listing with one DPS row
(populated deadline) and one notice row (empty deadline cell). -/
theorem c2_witness :
    (c2DpsRec.deadline.isSome = true ∧ c2DpsRec.originalDeadline.isSome = true) ∧
    c2NRec.deadline.isSome = c2NRec.originalDeadline.isSome :=
  have h : getNotices [c2DpsRow] [c2NRow] Language.Fi = .ok c2Res := by decide
  have hall := c2_deadline_pairing.1 [c2DpsRow] [c2NRow] Language.Fi c2Res h
  ⟨hall.1 c2DpsRec (by decide), hall.2 c2NRec (by decide)⟩

/-! ### C7 — company listing -/

/-- C7: `getCompanies` skips every cell with a falsy style attribute and
every cell carrying a colspan attribute; when every remaining data cell
extracts, the listing succeeds, and any successful listing has exactly one
company record per data cell; and scenario B — one spacer cell plus one
data cell with image src ending `Image/42`, href ending in `acme` and
caption `Acme Oy` — yields exactly `[Company (id 42) "acme" "Acme Oy"]`. -/
theorem c7_company_listing :
    (∀ (c : CompanyCell) (t : List CompanyCell), isDataCell c = false →
      getCompanies (c :: t) = getCompanies t) ∧
    (∀ cells : List CompanyCell,
      (∀ c ∈ cells, isDataCell c = true → isOkE (extractCompany c) = true) →
      isOkE (getCompanies cells) = true) ∧
    (∀ (cells : List CompanyCell) (comps : List Company),
      getCompanies cells = .ok comps →
      comps.length = cells.countP (fun c => isDataCell c)) ∧
    getCompanies c7Cells = .ok c7Out := by
  have skip : ∀ (c : CompanyCell) (t : List CompanyCell), isDataCell c = false →
      getCompanies (c :: t) = getCompanies t := by
    intro c t hc
    cases hs : jsTruthyStr c.style with
    | false => simp [getCompanies, hs]
    | true =>
      have hcol : jsTruthyStr c.colspan = true := by
        simp [isDataCell, hs] at hc
        exact hc
      simp [getCompanies, hs, hcol]
  have okAll : ∀ cells : List CompanyCell,
      (∀ c ∈ cells, isDataCell c = true → isOkE (extractCompany c) = true) →
      isOkE (getCompanies cells) = true := by
    intro cells
    induction cells with
    | nil => intro _; rfl
    | cons c t ih =>
      intro h
      by_cases hdc : isDataCell c = true
      · have hsplit : jsTruthyStr c.style = true ∧ jsTruthyStr c.colspan = false := by
          simpa [isDataCell] using hdc
        have hok := h c (List.mem_cons_self c t) hdc
        cases hex : extractCompany c with
        | error e => rw [hex] at hok; simp [isOkE] at hok
        | ok comp =>
          have ht := ih (fun x hx hdx => h x (List.mem_cons_of_mem c hx) hdx)
          cases hg : getCompanies t with
          | error e => rw [hg] at ht; simp [isOkE] at ht
          | ok rest => simp [getCompanies, hsplit.1, hsplit.2, hex, hg, isOkE]
      · have hc' : isDataCell c = false := by
          revert hdc; cases isDataCell c <;> simp
        rw [skip c t hc']
        exact ih (fun x hx hdx => h x (List.mem_cons_of_mem c hx) hdx)
  have lenEq : ∀ (cells : List CompanyCell) (comps : List Company),
      getCompanies cells = .ok comps →
      comps.length = cells.countP (fun c => isDataCell c) := by
    intro cells
    induction cells with
    | nil =>
      intro comps h
      simp [getCompanies] at h
      subst h
      simp
    | cons c t ih =>
      intro comps h
      by_cases hdc : isDataCell c = true
      · have hsplit : jsTruthyStr c.style = true ∧ jsTruthyStr c.colspan = false := by
          simpa [isDataCell] using hdc
        unfold getCompanies at h
        rw [hsplit.1, hsplit.2] at h
        simp at h
        cases hex : extractCompany c with
        | error e => rw [hex] at h; simp at h
        | ok comp =>
          rw [hex] at h
          cases hg : getCompanies t with
          | error e => rw [hg] at h; simp at h
          | ok rest =>
            rw [hg] at h
            simp only [Except.ok.injEq] at h
            subst h
            simp [List.countP_cons, hdc, ih rest hg]
      · have hc' : isDataCell c = false := by
          revert hdc; cases isDataCell c <;> simp
        rw [skip c t hc'] at h
        simp [List.countP_cons, hc', ih comps h]
  exact ⟨skip, okAll, lenEq, by decide⟩

/-- C7 (witness): the general clauses applied to the scenario B fixture. -/
theorem c7_witness :
    isOkE (getCompanies c7Cells) = true ∧
    c7Out.length = c7Cells.countP (fun c => isDataCell c) :=
  ⟨c7_company_listing.2.1 c7Cells (by decide),
   c7_company_listing.2.2.1 c7Cells c7Out (by decide)⟩

/-! ### C10 — attachment uuid / link round trip -/

/-- C10: for every attachment link whose href is the fixed download-path
text followed by a uuid, the `fileUuid` extracted by `getNotice` equals
that uuid, and `buildAttachmentLink` on the extracted uuid reconstructs
the absolute download URL — the site origin followed by the relative
href with its leading `..` resolved away. -/
theorem c10_attachment_roundtrip :
    ∀ (fileName uuid : String) (noticeId : Int) (pages : NoticeDetailPages)
      (locale : Language) (nd : NoticeDetail),
      getNoticeDetail noticeId pages locale = .ok nd →
      (fileName, some (attachmentHrefStub ++ uuid)) ∈ pages.attachmentLinks →
      ({ fileName := fileName, fileUuid := some uuid } : NoticeAttachment)
        ∈ nd.attachments ∧
      buildAttachmentLink uuid =
        "https://tarjouspalvelu.fi" ++ strDrop (attachmentHrefStub ++ uuid) 2 := by
  intro fileName uuid noticeId pages locale nd h hmem
  have hsw : listStartsWith (attachmentHrefStub ++ uuid).data
      attachmentHrefStub.data = true := by
    rw [strDataAppend]; exact listStartsWith_append _ _
  have hrep : jsReplaceFirst (attachmentHrefStub ++ uuid) attachmentHrefStub "" = uuid := by
    rw [jsReplaceFirst_drop hsw]
    apply strEqOfData
    show (attachmentHrefStub ++ uuid).data.drop attachmentHrefStub.length = uuid.data
    rw [strDataAppend]
    exact List.drop_left _ _
  have hext : extractAttachment (fileName, some (attachmentHrefStub ++ uuid)) =
      { fileName := fileName, fileUuid := some uuid } := by
    unfold extractAttachment
    rw [show (some (attachmentHrefStub ++ uuid)).map
          (fun h => jsReplaceFirst h attachmentHrefStub "") =
        some (jsReplaceFirst (attachmentHrefStub ++ uuid) attachmentHrefStub "")
        from rfl]
    rw [hrep]
  constructor
  · unfold getNoticeDetail at h
    cases hfl : exceptMapList decodeFlagDetail pages.flagSrcs with
    | error e => rw [hfl] at h; simp at h
    | ok flags =>
      rw [hfl] at h
      simp only [Except.ok.injEq] at h
      subst h
      have hm := List.mem_map_of_mem extractAttachment hmem
      rw [hext] at hm
      exact hm
  · apply strEqOfData
    show ("https://tarjouspalvelu.fi/Document/Open/?fileType=TarjPyynTied&id="
        ++ uuid).data =
      ("https://tarjouspalvelu.fi" ++ strDrop (attachmentHrefStub ++ uuid) 2).data
    rw [strDataAppend, strDataAppend]
    show _ = "https://tarjouspalvelu.fi".data ++ (attachmentHrefStub ++ uuid).data.drop 2
    rw [strDataAppend]
    rw [List.drop_append_of_le_length
      (show 2 ≤ attachmentHrefStub.data.length by decide)]
    rw [← List.append_assoc]
    rw [show "https://tarjouspalvelu.fi".data ++ attachmentHrefStub.data.drop 2 =
      "https://tarjouspalvelu.fi/Document/Open/?fileType=TarjPyynTied&id=".data
      by decide]

/-- C10 (witness): the round trip at a concrete attachment link with uuid
`"uuid-1"`. -/
theorem c10_witness :
    ({ fileName := "file.pdf", fileUuid := some "uuid-1" } : NoticeAttachment)
      ∈ c10Det.attachments ∧
    buildAttachmentLink "uuid-1" =
      "https://tarjouspalvelu.fi" ++ strDrop (attachmentHrefStub ++ "uuid-1") 2 :=
  c10_attachment_roundtrip "file.pdf" "uuid-1" 9 c10Pages Language.Fi c10Det
    (by decide) (by decide)

/-! ### C3 — login failure on non-redirect -/

/-- C3 (counterexample): a login POST that comes back 200 (not a redirect)
on a session that already carries a token returns the session as success
in both variants — the call does not fail with `LoginFailed`. -/
theorem c3_counterexample :
    loginToSessionB c3Session c3Get c3Post = .ok c3Session ∧
    loginToSessionA c3Session c3Head c3Get c3Post = .ok c3Session := by decide

/-- C3 (amended): when the login POST receives a non-redirect response the
passed-in session's token field is never mutated; the call fails with
`LoginFailed` whenever the session carried no (truthy) token, but a
session that already carried one is returned unchanged as success (in the
`part_000` variant only when the response status was a success status;
its rejected non-302 statuses still raise `LoginFailed`). -/
theorem c3_login_nonredirect :
    ∀ (session : Session) (getResp postResp : HttpResponse),
      is2xx getResp.status = true →
      isRedirect3xx postResp.status = false →
      (loginToSessionB session getResp postResp =
        (if jsTruthyStr session.token then .ok session
         else .error .loginFailed)) ∧
      (∀ (headResp : HeadResponse) (n : Int),
        companySlugToIdA headResp = .ok n →
        loginToSessionA session headResp getResp postResp =
          (if is2xx postResp.status then
            (if jsTruthyStr session.token then .ok session
             else .error .loginFailed)
           else .error .loginFailed)) := by
  intro session getResp postResp hget hnr
  have h302 : postResp.status ≠ 302 := by
    intro he
    rw [he] at hnr
    exact absurd hnr (by decide)
  constructor
  · simp [loginToSessionB, hget, h302, loginTokenCheck]
  · intro headResp n hA
    by_cases hp : is2xx postResp.status = true
    · simp [loginToSessionA, hA, hget, h302, hp, loginTokenCheck]
    · have hp' : is2xx postResp.status = false := by
        revert hp; cases is2xx postResp.status <;> simp
      simp [loginToSessionA, hA, hget, h302, hp', loginTokenCheck]

/-- C3 (witness): the amended statement at a tokenless session and a 200
POST response: both variants fail with `LoginFailed`. -/
theorem c3_witness :
    loginToSessionB c3wSession c3Get c3Post = .error .loginFailed ∧
    loginToSessionA c3wSession c3Head c3Get c3Post = .error .loginFailed := by
  have h := c3_login_nonredirect c3wSession c3Get c3Post (by decide) (by decide)
  constructor
  · rw [h.1]; decide
  · rw [h.2 c3Head 13 (by decide)]; decide

/-! ### C4 — language-set confirmation -/

/-- C4 (counterexample): a language POST that comes back 200 (not a
redirect) returns the session as success in both variants — the call does
not fail. -/
theorem c4_counterexample :
    setSessionLanguageB Language.Sv c4Session c4Get c4Post = .ok c4Session ∧
    setSessionLanguageA Language.Sv c4Session c4Get c4Post = .ok c4Session := by decide

/-- C4 (amended): when the POST response is a 302 redirect, the culture
value read back from `Set-Cookie` is compared with the requested language
and a mismatch fails with `LanguageMismatch` while agreement succeeds;
but a non-redirect POST response does not fail: the `part_001` variant
returns the session as success for every non-302 outcome, and the
`part_000` variant does so for success statuses (failing only on rejected
non-302 statuses). -/
theorem c4_language_confirmation :
    ∀ (language : Language) (session : Session) (getResp postResp : HttpResponse),
      is2xx getResp.status = true →
      (postResp.status = 302 →
        ∀ c, cultureValue (joinedSetCookie postResp) = some c →
          (language.code = c →
            setSessionLanguageB language session getResp postResp = .ok session ∧
            setSessionLanguageA language session getResp postResp = .ok session) ∧
          (language.code ≠ c →
            setSessionLanguageB language session getResp postResp =
              .error .languageMismatch ∧
            setSessionLanguageA language session getResp postResp =
              .error .languageMismatch)) ∧
      (postResp.status ≠ 302 →
        setSessionLanguageB language session getResp postResp = .ok session ∧
        (is2xx postResp.status = true →
          setSessionLanguageA language session getResp postResp = .ok session) ∧
        (is2xx postResp.status = false →
          setSessionLanguageA language session getResp postResp =
            .error .languageSetFailed)) := by
  intro language session getResp postResp hget
  constructor
  · intro h302 c hc
    constructor
    · intro heq
      constructor <;>
        simp [setSessionLanguageB, setSessionLanguageA, hget, h302, hc, heq]
    · intro hne
      constructor <;>
        simp [setSessionLanguageB, setSessionLanguageA, hget, h302, hc, hne]
  · intro h302
    refine ⟨?_, ?_, ?_⟩
    · simp [setSessionLanguageB, hget, h302]
    · intro hp; simp [setSessionLanguageA, hget, h302, hp]
    · intro hp; simp [setSessionLanguageA, hget, h302, hp]

/-- C4 (witness): a 302 POST whose cookie confirms `sv-SE` against a
requested `fi-FI` fails with `LanguageMismatch` in both variants. -/
theorem c4_witness :
    setSessionLanguageB Language.Fi c4Session c4Get c4wPost =
      .error .languageMismatch ∧
    setSessionLanguageA Language.Fi c4Session c4Get c4wPost =
      .error .languageMismatch :=
  ((c4_language_confirmation Language.Fi c4Session c4Get c4wPost (by decide)).1
    (by decide) "sv-SE" (by decide)).2 (by decide)

/-! ### C6 — slug resolution -/

/-- C6 (counterexample): when the HEAD response resolves without any
redirect, the `part_001` variant returns `undefined` as a value instead of
failing (the `part_000` variant does fail). -/
theorem c6_counterexample :
    companySlugToIdB c6Resolved = .ok .undef ∧
    companySlugToIdA c6Resolved = .error .sessionAcquisitionFailed := by decide

/-- C6 (amended): both variants fail with `InvalidSlug` exactly when the
rejected HEAD response redirects to the generic index page; any other
redirect whose `Location` — after dropping its first 14 characters —
parses (as an `&`-separated query string) to a `p` value that `parseInt`
turns into a nonzero number yields that id; and when no redirect occurs or
the id parses to `NaN`, the `part_000` variant fails with the
`SessionAcquisitionFailed`-style error while the `part_001` variant
instead returns `undefined` resp. `NaN` without failing. -/
theorem c6_slug_resolution :
    ∀ resp : HeadResponse,
      (companySlugToIdA resp = .error .invalidSlug ↔
        (is2xx resp.status = false ∧ resp.location = some indexPageUrl)) ∧
      (companySlugToIdB resp = .error .invalidSlug ↔
        (is2xx resp.status = false ∧ resp.location = some indexPageUrl)) ∧
      (∀ (loc v : String) (n : Int),
        is2xx resp.status = false → resp.location = some loc →
        loc ≠ indexPageUrl → qsLookup (strDrop loc 14) "p" = some v →
        jsParseInt v = some n → n ≠ 0 →
        companySlugToIdA resp = .ok n ∧
        companySlugToIdB resp = .ok (.num n)) ∧
      (is2xx resp.status = true →
        companySlugToIdA resp = .error .sessionAcquisitionFailed ∧
        companySlugToIdB resp = .ok .undef) ∧
      (∀ (loc v : String),
        is2xx resp.status = false → resp.location = some loc →
        loc ≠ indexPageUrl → qsLookup (strDrop loc 14) "p" = some v →
        jsParseInt v = none →
        companySlugToIdA resp = .error .sessionAcquisitionFailed ∧
        companySlugToIdB resp = .ok .nan) := by
  intro resp
  refine ⟨?_, ?_, ?_, ?_, ?_⟩
  · constructor
    · intro hA
      cases h1 : is2xx resp.status with
      | true => rw [companySlugToIdA] at hA; rw [h1] at hA; simp at hA
      | false =>
        cases hloc : resp.location with
        | none => simp [companySlugToIdA, h1, hloc] at hA
        | some loc =>
          by_cases h2 : loc = indexPageUrl
          · exact ⟨rfl, by rw [h2]⟩
          · exfalso
            have h2' : ¬(some loc = some indexPageUrl) := by simpa using h2
            simp only [companySlugToIdA, h1, hloc, h2'] at hA
            simp at hA
            unfold slugRedirectId at hA
            cases hq : qsLookup (strDrop loc 14) "p" with
            | none => rw [hq] at hA; simp at hA
            | some v =>
              cases hjp : jsParseIntNum v with
              | num n =>
                by_cases hn : n = 0 <;> simp [hq, hjp, hn] at hA
              | nan => simp [hq, hjp] at hA
              | undef => simp [hq, hjp] at hA
    · intro hh
      simp [companySlugToIdA, hh.1, hh.2]
  · constructor
    · intro hB
      cases h1 : is2xx resp.status with
      | true => rw [companySlugToIdB] at hB; rw [h1] at hB; simp at hB
      | false =>
        cases hloc : resp.location with
        | none => simp [companySlugToIdB, h1, hloc] at hB
        | some loc =>
          by_cases h2 : loc = indexPageUrl
          · exact ⟨rfl, by rw [h2]⟩
          · exfalso
            have h2' : ¬(some loc = some indexPageUrl) := by simpa using h2
            simp only [companySlugToIdB, h1, hloc, h2'] at hB
            simp at hB
            unfold slugRedirectId at hB
            cases hq : qsLookup (strDrop loc 14) "p" with
            | none => rw [hq] at hB; simp at hB
            | some v => simp [hq] at hB
    · intro hh
      simp [companySlugToIdB, hh.1, hh.2]
  · intro loc v n h1 hloc hne hq hp hn0
    have h2' : ¬(some loc = some indexPageUrl) := by simpa using hne
    have hsr : slugRedirectId loc = .ok (.num n) := by
      unfold slugRedirectId
      rw [hq]
      simp [jsParseIntNum, hp]
    constructor
    · simp [companySlugToIdA, h1, hloc, h2', hsr, hn0]
    · simp [companySlugToIdB, h1, hloc, h2', hsr]
  · intro h1
    constructor <;> simp [companySlugToIdA, companySlugToIdB, h1]
  · intro loc v h1 hloc hne hq hp
    have h2' : ¬(some loc = some indexPageUrl) := by simpa using hne
    have hsr : slugRedirectId loc = .ok .nan := by
      unfold slugRedirectId
      rw [hq]
      simp [jsParseIntNum, hp]
    constructor
    · simp [companySlugToIdA, h1, hloc, h2', hsr]
    · simp [companySlugToIdB, h1, hloc, h2', hsr]

/-- C6 (witness): the helsinki-style redirect — `Location` carrying
`p=13` — resolves to 13 in both variants. -/
theorem c6_witness :
    companySlugToIdA c6Redirect = .ok 13 ∧
    companySlugToIdB c6Redirect = .ok (.num 13) :=
  (c6_slug_resolution c6Redirect).2.2.1
    "https://tarjouspalvelu.fi/tarjouspyynnot.aspx?g=abc&p=13" "13" 13
    (by decide) (by decide) (by decide) (by decide) (by decide) (by decide)

end Tarjouspalvelu
